import Mathlib

/-!
Shallow embedding of the resource-to-scene attachment pipeline of the
RusVim/engine repository, and proofs settling the frozen claims about it.

The embedding covers:
* `_completePartialMipmapChain` and `TextureHandler.open` / the texture decode
  dispatcher (src/src/resources/render.js, second file section);
* `RenderHandler.patch` with `onContainerAssetLoaded` / `onContainerAssetAdded`
  (src/src/resources/render.js, first file section);
* the `RenderComponent` property setters (src/unnamed/part_000).

JavaScript numbers used as integer counters, ids and flags are modelled as
`Nat` / `Int` / `Bool`; pixel data as lists of rationals (the numeric values
never matter to a claim, only buffer lengths); JS exceptions as `Except JsErr`
or `Option`; `undefined` / `null` as `Option.none`.  External collaborators
(scene layers, batch groups, the asset registry's event bus) appear only
through their public mutation surface and are modelled from the spec where
noted.
-/

namespace RusVim

/-- JavaScript runtime errors reachable in the embedded code paths. -/
inductive JsErr where
  | typeError
  | referenceError
deriving Repr, DecidableEq

/-! ## Floor log2 (JS `Math.log2` on integer inputs)

`Math.log2(m)` on a positive integer `m` is an exact integer precisely when
`m` is a power of two (no double rounds to an integer for the dimensions in
play).  The source compares `Math.log2(max(w,h)) + 1` with `===` against the
integer level count, and uses it as the bound of an integer `for` counter; the
two functions below give the integer semantics of those two uses. -/

/-- Structural (fuel-based) floor of log2, so that concrete instances
kernel-reduce: `log2fuel f n = ⌊log2 n⌋` whenever `n ≤ f`. -/
def log2fuel : Nat → Nat → Nat
  | 0, _ => 0
  | fuel + 1, n => if n < 2 then 0 else log2fuel fuel (n / 2) + 1

/-- `⌊Math.log2 n⌋` for a positive integer `n` (0 for `n = 0`). -/
def jsLog2 (n : Nat) : Nat := log2fuel n n

/-- `Math.log2 m` is an integer exactly when `m` is a power of two. -/
def jsLog2IsInt (m : Nat) : Bool := m == 2 ^ jsLog2 m

/-- The number of integers `level` with `level < Math.log2 m + 1`: the integer
`for` counter of the mip-synthesis loop stops at this bound.  For a power of
two the bound is exact (`⌊log2 m⌋ + 1`); otherwise `Math.log2 m` is fractional
and one more integer fits below it (`⌊log2 m⌋ + 2`); `Math.log2 0 = -∞`, so
the loop never runs. -/
def jsRequiredCeil (m : Nat) : Nat :=
  if m == 0 then 0
  else if jsLog2IsInt m then jsLog2 m + 1 else jsLog2 m + 2

lemma log2fuel_zero (f : Nat) : log2fuel f 0 = 0 := by
  cases f <;> simp [log2fuel]

lemma log2fuel_congr : ∀ (n f1 f2 : Nat), n ≤ f1 → n ≤ f2 →
    log2fuel f1 n = log2fuel f2 n := by
  intro n
  induction n using Nat.strong_induction_on with
  | _ n ih =>
    intro f1 f2 h1 h2
    match f1, f2 with
    | 0, f2 =>
      have hn : n = 0 := by omega
      subst hn
      simp [log2fuel, log2fuel_zero]
    | f1 + 1, 0 =>
      have hn : n = 0 := by omega
      subst hn
      simp [log2fuel, log2fuel_zero]
    | f1 + 1, f2 + 1 =>
      by_cases hn : n < 2
      · simp [log2fuel, hn]
      · simp only [log2fuel, hn, if_false]
        have hlt : n / 2 < n := Nat.div_lt_self (by omega) (by omega)
        rw [ih (n / 2) hlt f1 f2 (by omega) (by omega)]

lemma jsLog2_two_pow (k : Nat) : jsLog2 (2 ^ k) = k := by
  induction k with
  | zero => rfl
  | succ k ih =>
    have h2 : (2 : Nat) ^ (k + 1) = 2 * 2 ^ k := by ring
    have hpos : 0 < 2 ^ k := Nat.pos_pow_of_pos _ (by omega)
    unfold jsLog2
    obtain ⟨m, hm⟩ : ∃ m, 2 ^ (k + 1) = m + 1 := ⟨2 ^ (k + 1) - 1, by omega⟩
    rw [hm]
    simp only [log2fuel, show ¬ (m + 1 < 2) by omega, if_false]
    have hdiv : (m + 1) / 2 = 2 ^ k := by
      rw [← hm, h2, Nat.mul_div_cancel_left _ (by omega : (0:Nat) < 2)]
    rw [hdiv]
    have hc : log2fuel m (2 ^ k) = log2fuel (2 ^ k) (2 ^ k) :=
      log2fuel_congr (2 ^ k) m (2 ^ k) (by omega) (le_refl _)
    have hich : log2fuel (2 ^ k) (2 ^ k) = k := ih
    omega

lemma jsLog2IsInt_two_pow (k : Nat) : jsLog2IsInt (2 ^ k) = true := by
  simp [jsLog2IsInt, jsLog2_two_pow]

lemma jsRequiredCeil_two_pow (k : Nat) : jsRequiredCeil (2 ^ k) = k + 1 := by
  have hpos : 0 < 2 ^ k := Nat.pos_pow_of_pos _ (by omega)
  have hne : (2 ^ k == 0) = false := by
    simp only [beq_eq_false_iff_ne, ne_eq]
    omega
  simp [jsRequiredCeil, jsLog2IsInt_two_pow, jsLog2_two_pow, hne]

/-! ## Texture objects and the mip-chain completion pass -/

/-- Pixel-format tags (the source reads `pc.PIXELFORMAT_*`; the concrete
values only serve as distinct constants). -/
def PIXELFORMAT_R8_G8_B8 : Nat := 6

def PIXELFORMAT_R8_G8_B8_A8 : Nat := 7

def PIXELFORMAT_RGBA32F : Nat := 14

/-- One mip level's backing store for a single face: either a typed-array
pixel buffer (a flat list of numbers) or a browser media element
(HTMLCanvas/Image/Video), which the completion pass must not resample. -/
inductive PixelSource where
  | data (px : List ℚ) : PixelSource
  | html : PixelSource
deriving Repr, DecidableEq

/-- `isHtmlElement` from `_completePartialMipmapChain` (render.js 149-153). -/
def isHtmlElement : PixelSource → Bool
  | .html => true
  | .data _ => false

/-- A mip level: one buffer for a 2D texture, an array of six per level for a
cube map. -/
inductive TexLevel where
  | single (d : PixelSource) : TexLevel
  | cube (faces : List PixelSource) : TexLevel
deriving Repr, DecidableEq

/-- `texture._levelsUpdated`: a per-level dirty array, or per-level arrays of
six per-face flags for a cube map. -/
inductive LevelsUpdated where
  | flat (l : List Bool) : LevelsUpdated
  | cubeFlags (l : List (List Bool)) : LevelsUpdated
deriving Repr, DecidableEq

/-- Whether the levels-updated state marks mip level `i` (every face of it)
dirty for upload; an index outside the array is unmarked (JS `undefined` is
falsy). -/
def markedDirty (lu : LevelsUpdated) (i : Nat) : Bool :=
  match lu with
  | .flat l => l.getD i false
  | .cubeFlags l => (l.get? i).elim false (fun fl => fl.length == 6 && fl.all id)

/-- The texture object surface touched by the dispatcher (render.js fields
`_width`, `_height`, `_format`, `_volume`, `_compressed`, `_cubemap`,
`_levels`, `_levelsUpdated`). -/
structure Texture where
  _width : Nat
  _height : Nat
  _format : Nat
  _volume : Bool := false
  _compressed : Bool := false
  _cubemap : Bool := false
  _levels : List TexLevel := []
  _levelsUpdated : LevelsUpdated := .flat []
deriving Repr, DecidableEq

/-- `downsample` (render.js 165-189): box-filter one level's buffer down to
the next level's size.  The imperative triple loop writes every output slot
`(x + y*sampledWidth)*4 + e` exactly once; mapping over the output index range
reproduces it slot by slot (`e` = channel, `x`,`y` = output pixel).  Reads use
`getD _ 0`; every read the loop performs is in range when `data` has
`width*height*4` entries. -/
def downsample (width height : Nat) (data : List ℚ) : List ℚ :=
  let sampledWidth := max 1 (width >>> 1)
  let sampledHeight := max 1 (height >>> 1)
  let xs := width / sampledWidth
  let ys := height / sampledHeight
  let xsys := xs * ys
  (List.range (sampledWidth * sampledHeight * 4)).map (fun idx =>
    let e := idx % 4
    let x := (idx / 4) % sampledWidth
    let y := idx / (4 * sampledWidth)
    let sum := (List.range ys).foldl (fun acc sy =>
      (List.range xs).foldl (fun acc2 sx =>
        acc2 + data.getD ((x * xs + sx + (y * ys + sy) * width) * 4 + e) 0) acc) 0
    sum / (xsys : ℚ))

lemma downsample_length (width height : Nat) (data : List ℚ) :
    (downsample width height data).length
      = (max 1 (width >>> 1)) * (max 1 (height >>> 1)) * 4 := by
  simp [downsample]

/-- Resampling a media-element level would throw in JS
(`new data.constructor(...)` on an HTML element is not constructible);
modelled as `none`. -/
def downsampleSrc (width height : Nat) : PixelSource → Option PixelSource
  | .data px => some (.data (downsample width height px))
  | .html => none

/-- The per-face loop of the cube branch: downsample each face in order,
aborting at the first face whose resampling would throw. -/
def mapMOpt (f : PixelSource → Option PixelSource) : List PixelSource → Option (List PixelSource)
  | [] => some []
  | a :: rest =>
    match f a, mapMOpt f rest with
    | some b, some bs => some (b :: bs)
    | _, _ => none

/-- One iteration of the level-synthesis loop (render.js 192-204): level
`level` is built from level `level - 1`, whose dimensions the source
recomputes as `max(1, _width >> (level-1))` per axis; for a cube map the six
faces are each downsampled (the `for (face = 0; face < 6; ...)` loop needs six
faces to read).  A level of the wrong shape for the texture's cube flag is
outside the embedded domain (`none`). -/
def stepLevel (cubemap : Bool) (w h level : Nat) (prev : TexLevel) : Option TexLevel :=
  let pw := max 1 (w >>> (level - 1))
  let ph := max 1 (h >>> (level - 1))
  match cubemap, prev with
  | true, .cube faces =>
      if faces.length == 6 then (mapMOpt (downsampleSrc pw ph) faces).map .cube else none
  | false, .single d => (downsampleSrc pw ph d).map .single
  | _, _ => none

/-- The synthesis loop: starting at index `level = _levels.length`, append `n`
new levels, each built from the entry at `level - 1` (which is always the last
entry, since the array grows by one per iteration). -/
def completeFrom (cubemap : Bool) (w h : Nat) :
    Nat → Nat → List TexLevel → Option (List TexLevel)
  | _, 0, levels => some levels
  | level, n + 1, levels =>
    match levels[level - 1]? with
    | none => none
    | some prev =>
      match stepLevel cubemap w h level prev with
      | none => none
      | some nl => completeFrom cubemap w h (level + 1) n (levels ++ [nl])

/-- `isHtmlElement(texture._cubemap ? texture._levels[0][0] : texture._levels[0])`
(render.js 161): reading past the end, or indexing a buffer where an array of
faces is expected, yields a non-HTML value in JS, hence `false`. -/
def level0IsHtml (t : Texture) : Bool :=
  match t._levels[0]?, t._cubemap with
  | some (TexLevel.cube faces), true => faces[0]?.elim false isHtmlElement
  | some (TexLevel.single d), false => isHtmlElement d
  | _, _ => false

/-- The dirty-flags array the pass installs after synthesis (render.js 206):
`[[true x6]]` for a cube map, `[true]` otherwise. -/
def freshLevelsUpdated (cubemap : Bool) : LevelsUpdated :=
  if cubemap then .cubeFlags [[true, true, true, true, true, true]] else .flat [true]

/-- `_completePartialMipmapChain` (render.js 145-207).  Returns the texture
unchanged when any eligibility check fails; `none` where the JS would throw
(resampling a media level, or a level of the wrong shape).  The float bound
`requiredMipLevels = Math.log2(max(w,h)) + 1` is compared with `===` to the
integer level count — true only when the max dimension is a power of two and
the count is `⌊log2⌋ + 1` — and bounds the integer loop counter, which
therefore runs `jsRequiredCeil - length` times.  After the loop the source
replaces `_levelsUpdated` with a one-entry array (six per-face flags for a
cube map). -/
def _completePartialMipmapChain (texture : Texture) : Option Texture :=
  let m := max texture._width texture._height
  if !(texture._format == PIXELFORMAT_R8_G8_B8_A8
        || texture._format == PIXELFORMAT_RGBA32F)
      || texture._volume
      || texture._compressed
      || texture._levels.length == 1
      || (jsLog2IsInt m && texture._levels.length == jsLog2 m + 1)
      || level0IsHtml texture
  then some texture
  else
    match completeFrom texture._cubemap texture._width texture._height
        texture._levels.length (jsRequiredCeil m - texture._levels.length)
        texture._levels with
    | none => none
    | some ls =>
      some { texture with _levels := ls, _levelsUpdated := freshLevelsUpdated texture._cubemap }

/-- A level whose backing store matches the texture's cube flag and holds raw
pixel buffers only (the spec's "single-buffer levels"): one buffer for a 2D
texture, six for a cube map. -/
def bufferLevel (cubemap : Bool) (tl : TexLevel) : Bool :=
  match cubemap, tl with
  | false, .single (.data _) => true
  | true, .cube faces => faces.length == 6 && faces.all (fun f => !isHtmlElement f)
  | _, _ => false

def bufLen : PixelSource → Nat
  | .data px => px.length
  | .html => 0

/-- The buffer lengths a level holds (one per face for a cube map). -/
def levelBufLens : TexLevel → List Nat
  | .single d => [bufLen d]
  | .cube faces => faces.map bufLen

/-- The per-axis pixel count of synthesized level `L`: `max(1, prevDim >> 1)`
with the previous dimension as the loop recomputes it from the texture's
level-0 size. -/
def synthDim (d L : Nat) : Nat := max 1 ((max 1 (d >>> (L - 1))) >>> 1)

/-- Downsampling as a total function on buffer sources (the `.html` case is
never reached under `bufferLevel`). -/
def downsampleD (pw ph : Nat) : PixelSource → PixelSource
  | .data px => .data (downsample pw ph px)
  | .html => .html

lemma mapMOpt_downsampleSrc (pw ph : Nat) (faces : List PixelSource)
    (hall : ∀ f ∈ faces, isHtmlElement f = false) :
    mapMOpt (downsampleSrc pw ph) faces = some (faces.map (downsampleD pw ph)) := by
  induction faces with
  | nil => rfl
  | cons f rest ih =>
    have hf : isHtmlElement f = false := hall f (List.mem_cons_self _ _)
    have hrest : ∀ g ∈ rest, isHtmlElement g = false :=
      fun g hg => hall g (List.mem_cons_of_mem _ hg)
    cases f with
    | html => simp [isHtmlElement] at hf
    | data px =>
      simp [mapMOpt, ih hrest, downsampleSrc, downsampleD]

lemma stepLevel_wf (cubemap : Bool) (w h level : Nat) (prev : TexLevel)
    (hwf : bufferLevel cubemap prev = true) :
    ∃ nl, stepLevel cubemap w h level prev = some nl
      ∧ bufferLevel cubemap nl = true
      ∧ ∀ sz ∈ levelBufLens nl, sz = synthDim w level * synthDim h level * 4 := by
  cases cubemap with
  | false =>
    match prev, hwf with
    | .single (.data px), _ =>
      refine ⟨.single (.data (downsample (max 1 (w >>> (level - 1)))
        (max 1 (h >>> (level - 1))) px)), rfl, rfl, ?_⟩
      intro sz hsz
      simp only [levelBufLens, bufLen, List.mem_singleton] at hsz
      subst hsz
      rw [downsample_length]
      rfl
  | true =>
    match prev, hwf with
    | .cube faces, hwf =>
      simp only [bufferLevel, Bool.and_eq_true, beq_iff_eq, List.all_eq_true,
        Bool.not_eq_true'] at hwf
      obtain ⟨h6, hdata⟩ := hwf
      refine ⟨.cube (faces.map (downsampleD (max 1 (w >>> (level - 1)))
        (max 1 (h >>> (level - 1))))), ?_, ?_, ?_⟩
      · simp [stepLevel, h6, mapMOpt_downsampleSrc _ _ faces hdata]
      · simp only [bufferLevel, Bool.and_eq_true, beq_iff_eq, List.length_map,
          List.all_eq_true, Bool.not_eq_true']
        refine ⟨h6, ?_⟩
        intro f hf
        obtain ⟨g, hg, rfl⟩ := List.mem_map.mp hf
        have := hdata g hg
        cases g with
        | data px => rfl
        | html => simp [isHtmlElement] at this
      · intro sz hsz
        simp only [levelBufLens, List.map_map, List.mem_map] at hsz
        obtain ⟨g, hg, rfl⟩ := hsz
        have := hdata g hg
        cases g with
        | html => simp [isHtmlElement] at this
        | data px =>
          simp only [Function.comp, downsampleD, bufLen]
          rw [downsample_length]
          rfl

lemma completeFrom_spec (cubemap : Bool) (w h : Nat) :
    ∀ (n level : Nat) (levels : List TexLevel),
    levels.length = level → 1 ≤ level →
    (∀ tl ∈ levels, bufferLevel cubemap tl = true) →
    ∃ ls, completeFrom cubemap w h level n levels = some ls
      ∧ ls.length = level + n
      ∧ (∀ tl ∈ ls, bufferLevel cubemap tl = true)
      ∧ (∀ i, i < level → ls[i]? = levels[i]?)
      ∧ (∀ L, level ≤ L → L < level + n →
          ∀ sz ∈ (ls[L]?).elim [] levelBufLens,
            sz = synthDim w L * synthDim h L * 4) := by
  intro n
  induction n with
  | zero =>
    intro level levels hlen _ hwf
    exact ⟨levels, rfl, by omega, hwf, fun i _ => rfl, fun L h1 h2 => by omega⟩
  | succ n ih =>
    intro level levels hlen hpos hwf
    have hidx : level - 1 < levels.length := by omega
    have hgetp : levels[level - 1]? = some levels[level - 1] :=
      List.getElem?_eq_getElem hidx
    have hprevmem : levels[level - 1] ∈ levels := List.getElem_mem hidx
    obtain ⟨nl, hstep, hnlwf, hnlsz⟩ :=
      stepLevel_wf cubemap w h level levels[level - 1] (hwf _ hprevmem)
    have hwf' : ∀ tl ∈ levels ++ [nl], bufferLevel cubemap tl = true := by
      intro tl htl
      rcases List.mem_append.mp htl with hmem | hmem
      · exact hwf tl hmem
      · rw [List.mem_singleton.mp hmem]
        exact hnlwf
    obtain ⟨ls, hrun, hlslen, hlswf, hpres, hsz⟩ :=
      ih (level + 1) (levels ++ [nl]) (by simp [hlen]) (by omega) hwf'
    refine ⟨ls, ?_, by omega, hlswf, ?_, ?_⟩
    · simp only [completeFrom, hgetp, hstep]
      exact hrun
    · intro i hi
      rw [hpres i (by omega)]
      exact List.getElem?_append_left (by omega)
    · intro L hL1 hL2
      rcases Nat.eq_or_lt_of_le hL1 with hEq | hLt
      · have hcat : (levels ++ [nl])[level]? = some nl := by
          have hcl := List.getElem?_concat_length levels nl
          rwa [hlen] at hcl
        have hat : ls[L]? = some nl := by
          rw [← hEq, hpres level (by omega), hcat]
        rw [hat]
        subst hEq
        simpa using hnlsz
      · exact hsz L (by omega) (by omega)

/-- Level 0 of a well-formed partial chain is raw pixel data, not a media
element. -/
lemma level0IsHtml_of_wf (t : Texture) (hpos : 0 < t._levels.length)
    (hwf : ∀ tl ∈ t._levels, bufferLevel t._cubemap tl = true) :
    level0IsHtml t = false := by
  have hget : t._levels[0]? = some t._levels[0] := List.getElem?_eq_getElem hpos
  have hmem : t._levels[0] ∈ t._levels := List.getElem_mem hpos
  have hwf0 := hwf _ hmem
  cases hcube : t._cubemap with
  | false =>
    rw [hcube] at hwf0
    match htl0 : t._levels[0], hwf0 with
    | .single (.data px), _ =>
      rw [htl0] at hget
      simp [level0IsHtml, hget, hcube, isHtmlElement]
  | true =>
    rw [hcube] at hwf0
    match htl0 : t._levels[0], hwf0 with
    | .cube faces, hwf0 =>
      rw [htl0] at hget
      simp only [bufferLevel, Bool.and_eq_true, beq_iff_eq, List.all_eq_true,
        Bool.not_eq_true'] at hwf0
      obtain ⟨h6, hdata⟩ := hwf0
      have h0 : 0 < faces.length := by omega
      have hgetf : faces[0]? = some faces[0] := List.getElem?_eq_getElem h0
      simp [level0IsHtml, hget, hcube, hgetf, hdata faces[0] (List.getElem_mem h0)]

/-! ## TextureHandler.open (render.js 262-281) -/

/-- `new pc.Texture(device, {width, height, format})`: a fresh texture with
the given descriptor; level storage starts empty. -/
def newTexture (w h fmt : Nat) : Texture :=
  { _width := w, _height := h, _format := fmt }

/-- What `TextureHandler.open` hands back to the loader: JS `undefined`, a
texture, or an escaped exception. -/
inductive OpenResult where
  | undef : OpenResult
  | tex (t : Texture) : OpenResult
  | thrown : OpenResult
deriving Repr, DecidableEq

/-- `TextureHandler.open(url, data)` (render.js 262-281), instrumented with
the number of parser invocations.  The extension-selected parser's `open` is
the parameter `parserOpen` (a `null` result modelled as `none`); `url` is a JS
string-or-undefined, and both `undefined` and `""` are falsy, making the
method return `undefined` before any parser runs.  A `null` parser result is
replaced by the fixed 4×4 `PIXELFORMAT_R8_G8_B8` placeholder; otherwise the
mip completion pass runs on the parsed texture. -/
def TextureHandler_open {α : Type} (parserOpen : String → α → Option Texture)
    (url : Option String) (data : α) : OpenResult × Nat :=
  match url with
  | none => (.undef, 0)
  | some u =>
    if u == "" then (.undef, 0)
    else
      match parserOpen u data with
      | none => (.tex (newTexture 4 4 PIXELFORMAT_R8_G8_B8), 1)
      | some t =>
        match _completePartialMipmapChain t with
        | none => (.thrown, 1)
        | some t2 => (.tex t2, 1)

/-! ## Claim C1 -/

/-- C1 (amended): for every texture satisfying the mip-completion eligibility
predicate (RGBA8/RGBA32F format, not volume, not compressed, well-formed
buffer levels, more than one level but fewer than the full chain) and whose
`max(width,height)` is a power of two, `_completePartialMipmapChain` extends
the level array to exactly `⌊log2(max(width,height))⌋ + 1` levels, and every
synthesized level's buffers have `max(1, prevW>>1) * max(1, prevH>>1) * 4`
entries, the previous dimensions recomputed as `max(1, dim >> (L-1))`.
(As stated the claim fails for a non-power-of-two maximum dimension, where the
loop bound `Math.log2(max)+1` is fractional and one extra level is produced;
see the counterexample.) -/
theorem c1_mip_completion (t : Texture) (k : Nat)
    (hfmt : t._format = PIXELFORMAT_R8_G8_B8_A8 ∨ t._format = PIXELFORMAT_RGBA32F)
    (hvol : t._volume = false) (hcomp : t._compressed = false)
    (hwf : ∀ tl ∈ t._levels, bufferLevel t._cubemap tl = true)
    (hlen : 1 < t._levels.length)
    (hpow : max t._width t._height = 2 ^ k)
    (hchainlt : t._levels.length < k + 1) :
    ∃ t', _completePartialMipmapChain t = some t'
      ∧ t'._levels.length = jsLog2 (max t._width t._height) + 1
      ∧ ∀ L, t._levels.length ≤ L → L < t'._levels.length →
          ∀ sz ∈ (t'._levels[L]?).elim [] levelBufLens,
            sz = synthDim t._width L * synthDim t._height L * 4 := by
  have hhtml : level0IsHtml t = false := level0IsHtml_of_wf t (by omega) hwf
  have hlog : jsLog2 (max t._width t._height) = k := by rw [hpow, jsLog2_two_pow]
  have hceil : jsRequiredCeil (max t._width t._height) = k + 1 := by
    rw [hpow, jsRequiredCeil_two_pow]
  have hfmtb : (t._format == PIXELFORMAT_R8_G8_B8_A8
      || t._format == PIXELFORMAT_RGBA32F) = true := by
    rcases hfmt with hf | hf <;> simp [hf]
  have hlenne : (t._levels.length == 1) = false := by
    simp only [beq_eq_false_iff_ne, ne_eq]
    omega
  have hfullne : (t._levels.length == jsLog2 (max t._width t._height) + 1) = false := by
    simp only [beq_eq_false_iff_ne, ne_eq, hlog]
    omega
  obtain ⟨ls, hrun, hlslen, _, _, hsz⟩ :=
    completeFrom_spec t._cubemap t._width t._height
      (jsRequiredCeil (max t._width t._height) - t._levels.length)
      t._levels.length t._levels rfl (by omega) hwf
  have hcond : (!(t._format == PIXELFORMAT_R8_G8_B8_A8 || t._format == PIXELFORMAT_RGBA32F)
      || t._volume || t._compressed || t._levels.length == 1
      || (jsLog2IsInt (max t._width t._height)
            && t._levels.length == jsLog2 (max t._width t._height) + 1)
      || level0IsHtml t) = false := by
    simp [hfmtb, hvol, hcomp, hlenne, hfullne, hhtml]
  refine ⟨{ t with _levels := ls, _levelsUpdated := freshLevelsUpdated t._cubemap }, ?_, ?_, ?_⟩
  · simp only [_completePartialMipmapChain, hcond, hrun]
    simp
  · simp only [hlog, hceil] at hlslen ⊢
    omega
  · intro L hL1 hL2
    simp only at hL2 ⊢
    refine hsz L hL1 ?_
    omega

def c1WitnessTex : Texture :=
  { _width := 8, _height := 8, _format := PIXELFORMAT_R8_G8_B8_A8,
    _levels := [.single (.data []), .single (.data [])] }

theorem c1_mip_completion_witness :
    ∃ t', _completePartialMipmapChain c1WitnessTex = some t'
      ∧ t'._levels.length = jsLog2 (max c1WitnessTex._width c1WitnessTex._height) + 1
      ∧ ∀ L, c1WitnessTex._levels.length ≤ L → L < t'._levels.length →
          ∀ sz ∈ (t'._levels[L]?).elim [] levelBufLens,
            sz = synthDim c1WitnessTex._width L * synthDim c1WitnessTex._height L * 4 :=
  c1_mip_completion c1WitnessTex 3 (Or.inl rfl) rfl rfl (by decide) (by decide)
    (by decide) (by decide)

/-- An eligible 5×5 two-level texture: the claim's predicate holds
(`1 < 2 < ⌊log2 5⌋ + 1 = 3`), yet the pass produces 4 levels, because the
loop's float bound `Math.log2(5) + 1 ≈ 3.32` admits the integer levels 2 and
3. -/
def cexTexC1 : Texture :=
  { _width := 5, _height := 5, _format := PIXELFORMAT_R8_G8_B8_A8,
    _levels := [.single (.data []), .single (.data [])] }

/-- C1 counterexample: for the eligible 5×5 texture the completed level count
is 4, not `⌊log2(max(width,height))⌋ + 1 = 3` as the claim states. -/
theorem c1_counterexample :
    1 < cexTexC1._levels.length
    ∧ cexTexC1._levels.length < jsLog2 (max cexTexC1._width cexTexC1._height) + 1
    ∧ Option.map (fun t => t._levels.length) (_completePartialMipmapChain cexTexC1)
        = some 4
    ∧ jsLog2 (max cexTexC1._width cexTexC1._height) + 1 = 3 := by
  refine ⟨by decide, by decide, by decide, by decide⟩

/-! ## Claim C8 -/

/-- C8 (amended): on every texture where the mip-completion pass runs, it
replaces the levels-updated state wholesale by a one-entry array marking level
0 dirty (all six faces when cubed); the synthesized levels at indices ≥ 1 are
NOT individually marked (the claim as stated fails; see the
counterexample). -/
theorem c8_levels_updated (t : Texture)
    (hfmt : t._format = PIXELFORMAT_R8_G8_B8_A8 ∨ t._format = PIXELFORMAT_RGBA32F)
    (hvol : t._volume = false) (hcomp : t._compressed = false)
    (hwf : ∀ tl ∈ t._levels, bufferLevel t._cubemap tl = true)
    (hlen : 1 < t._levels.length)
    (hfull : (jsLog2IsInt (max t._width t._height)
        && t._levels.length == jsLog2 (max t._width t._height) + 1) = false) :
    ∃ t', _completePartialMipmapChain t = some t'
      ∧ t'._levelsUpdated = (if t._cubemap
          then LevelsUpdated.cubeFlags [[true, true, true, true, true, true]]
          else LevelsUpdated.flat [true])
      ∧ ∀ L, 1 ≤ L → markedDirty t'._levelsUpdated L = false := by
  have hhtml : level0IsHtml t = false := level0IsHtml_of_wf t (by omega) hwf
  have hfmtb : (t._format == PIXELFORMAT_R8_G8_B8_A8
      || t._format == PIXELFORMAT_RGBA32F) = true := by
    rcases hfmt with hf | hf <;> simp [hf]
  have hlenne : (t._levels.length == 1) = false := by
    simp only [beq_eq_false_iff_ne, ne_eq]
    omega
  obtain ⟨ls, hrun, _, _, _, _⟩ :=
    completeFrom_spec t._cubemap t._width t._height
      (jsRequiredCeil (max t._width t._height) - t._levels.length)
      t._levels.length t._levels rfl (by omega) hwf
  have hcond : (!(t._format == PIXELFORMAT_R8_G8_B8_A8 || t._format == PIXELFORMAT_RGBA32F)
      || t._volume || t._compressed || t._levels.length == 1
      || (jsLog2IsInt (max t._width t._height)
            && t._levels.length == jsLog2 (max t._width t._height) + 1)
      || level0IsHtml t) = false := by
    simp [hfmtb, hvol, hcomp, hlenne, hfull, hhtml]
  refine ⟨{ t with _levels := ls, _levelsUpdated := freshLevelsUpdated t._cubemap }, ?_, ?_, ?_⟩
  · simp only [_completePartialMipmapChain, hcond, hrun]
    simp
  · simp [freshLevelsUpdated]
  · intro L hL
    obtain ⟨L', rfl⟩ : ∃ L', L = L' + 1 := ⟨L - 1, by omega⟩
    cases hc : t._cubemap <;> simp [hc, markedDirty, freshLevelsUpdated]

def c8WitnessTex : Texture :=
  { _width := 16, _height := 16, _format := PIXELFORMAT_RGBA32F,
    _levels := [.single (.data []), .single (.data [])] }

theorem c8_levels_updated_witness :
    ∃ t', _completePartialMipmapChain c8WitnessTex = some t'
      ∧ t'._levelsUpdated = (if c8WitnessTex._cubemap
          then LevelsUpdated.cubeFlags [[true, true, true, true, true, true]]
          else LevelsUpdated.flat [true])
      ∧ ∀ L, 1 ≤ L → markedDirty t'._levelsUpdated L = false :=
  c8_levels_updated c8WitnessTex (Or.inr rfl) rfl rfl (by decide) (by decide)
    (by decide)

/-- An eligible 8×8 two-level texture: the pass synthesizes levels 2 and 3. -/
def cexTexC8 : Texture :=
  { _width := 8, _height := 8, _format := PIXELFORMAT_R8_G8_B8_A8,
    _levels := [.single (.data []), .single (.data [])] }

/-- C8 counterexample: after the pass on the eligible 8×8 texture the levels
array holds 4 levels (indices 2 and 3 newly synthesized), yet the
levels-updated state is the one-entry array `[true]`, so the synthesized level
2 is not marked dirty. -/
theorem c8_counterexample :
    Option.map Texture._levelsUpdated (_completePartialMipmapChain cexTexC8)
        = some (LevelsUpdated.flat [true])
    ∧ Option.map (fun t => t._levels.length) (_completePartialMipmapChain cexTexC8)
        = some 4
    ∧ cexTexC8._levels.length = 2
    ∧ markedDirty (LevelsUpdated.flat [true]) 2 = false := by
  refine ⟨by decide, by decide, rfl, rfl⟩

/-! ## Claims C7 and C10 -/

/-- C7: for every non-falsy url and raw data the selected parser cannot
decode (`open` returns `null`), `TextureHandler.open` returns the fixed 4×4
square placeholder texture in the default `PIXELFORMAT_R8_G8_B8` color
format — never a failure or an unusable value. -/
theorem c7_open_placeholder {α : Type} (parserOpen : String → α → Option Texture)
    (u : String) (data : α) (hu : u ≠ "") (hp : parserOpen u data = none) :
    TextureHandler_open parserOpen (some u) data
        = (.tex (newTexture 4 4 PIXELFORMAT_R8_G8_B8), 1)
      ∧ (newTexture 4 4 PIXELFORMAT_R8_G8_B8)._width = 4
      ∧ (newTexture 4 4 PIXELFORMAT_R8_G8_B8)._height = 4
      ∧ (newTexture 4 4 PIXELFORMAT_R8_G8_B8)._format = PIXELFORMAT_R8_G8_B8 := by
  refine ⟨?_, rfl, rfl, rfl⟩
  have hub : (u == "") = false := by simpa using hu
  simp [TextureHandler_open, hub, hp]

theorem c7_open_placeholder_witness :
    TextureHandler_open (fun (_ : String) (_ : Unit) => (none : Option Texture))
        (some "image.png") ()
        = (.tex (newTexture 4 4 PIXELFORMAT_R8_G8_B8), 1)
      ∧ (newTexture 4 4 PIXELFORMAT_R8_G8_B8)._width = 4
      ∧ (newTexture 4 4 PIXELFORMAT_R8_G8_B8)._height = 4
      ∧ (newTexture 4 4 PIXELFORMAT_R8_G8_B8)._format = PIXELFORMAT_R8_G8_B8 :=
  c7_open_placeholder (fun _ _ => none) "image.png" () (by decide) rfl

/-- C10: for every falsy url (JS `undefined` or the empty string) and any data
and parser, `TextureHandler.open` returns `undefined` without invoking the
parser and without producing a placeholder texture. -/
theorem c10_open_falsy_url {α : Type} (parserOpen : String → α → Option Texture)
    (url : Option String) (data : α) (hfalsy : url = none ∨ url = some "") :
    TextureHandler_open parserOpen url data = (.undef, 0) := by
  rcases hfalsy with h | h <;> subst h <;> simp [TextureHandler_open]

theorem c10_open_falsy_url_witness :
    TextureHandler_open (fun (_ : String) (_ : Unit) => (none : Option Texture))
        (some "") () = (.undef, 0) :=
  c10_open_falsy_url (fun _ _ => none) (some "") () (Or.inr rfl)

/-! ## RenderHandler: the asset dependency resolver (render.js 11-69)

The single render asset under resolution, the asset registry, and the
registry's event bus.  `once`/`off`/`load`/`get` follow the external registry
interface (spec §6): `once` appends a subscription, `off` removes the matching
ones, `load` records the load trigger for the named asset, `get` looks an
asset up by id. -/

/-- A container resource: `containerAsset.resources[0]`, whose `renders` array
holds one entry per mesh group; each entry's `.resource` (the extracted mesh
set) is abstracted to a numeric id. -/
structure ContainerResource where
  renders : List Nat
deriving Repr, DecidableEq

structure ContainerAsset where
  id : Nat
  loaded : Bool
  resources : List ContainerResource
deriving Repr, DecidableEq

/-- `renderAsset.data`: the referenced container asset id and the mesh-group
index.  A missing/falsy `containerAsset` field is modelled as id 0 (JS
`undefined`, `null` and `0` are all falsy for the `!asset.data.containerAsset`
check). -/
structure RenderData where
  containerAsset : Nat
  renderIndex : Nat
deriving Repr, DecidableEq

/-- `renderAsset.resource` (a `Render` object): carries the `meshes` slot set
by extraction. -/
structure RenderResource where
  meshes : Option Nat := none
deriving Repr, DecidableEq

structure RenderAsset where
  data : RenderData
  resource : Option RenderResource
deriving Repr, DecidableEq

inductive EventKey where
  | add (id : Nat)
  | load (id : Nat)
deriving Repr, DecidableEq

/-- The two handler functions the resolver registers (the subscription context
is always the render asset). -/
inductive Handler where
  | containerLoaded
  | containerAdded
deriving Repr, DecidableEq

structure Sub where
  key : EventKey
  handler : Handler
deriving Repr, DecidableEq

structure Registry where
  assets : List ContainerAsset
  subs : List Sub := []
  loadsTriggered : List Nat := []
deriving Repr, DecidableEq

def Registry.get (r : Registry) (id : Nat) : Option ContainerAsset :=
  r.assets.find? (fun a => a.id == id)

def Registry.once (r : Registry) (k : EventKey) (hd : Handler) : Registry :=
  { r with subs := r.subs ++ [⟨k, hd⟩] }

def Registry.off (r : Registry) (k : EventKey) (hd : Handler) : Registry :=
  { r with subs := r.subs.filter (fun s => !(s.key == k && s.handler == hd)) }

def Registry.load (r : Registry) (a : ContainerAsset) : Registry :=
  { r with loadsTriggered := r.loadsTriggered ++ [a.id] }

/-- The state a resolution step acts on: the render asset, the registry, and
an instrumentation counter for executed extractions (assignments to
`renderAsset.resource.meshes`). -/
structure RState where
  renderAsset : RenderAsset
  registry : Registry
  extractions : Nat := 0
deriving Repr, DecidableEq

/-- `onContainerAssetLoaded` (render.js 16-25): exits at once when
`renderAsset.resource` is falsy; otherwise reads
`containerAsset.resources[0].renders[renderIndex]` and, if that entry exists,
assigns its resource to `renderAsset.resource.meshes`.  An empty `resources`
array would make the `.renders` read throw. -/
def onContainerAssetLoaded (c : ContainerAsset) (s : RState) : Except JsErr RState :=
  match s.renderAsset.resource with
  | none => .ok s
  | some res =>
    match c.resources[0]? with
    | none => .error .typeError
    | some cres =>
      match cres.renders[s.renderAsset.data.renderIndex]? with
      | none => .ok s
      | some meshGroup =>
        .ok { s with
          renderAsset := { s.renderAsset with
            resource := some { res with meshes := some meshGroup } },
          extractions := s.extractions + 1 }

/-- `onContainerAssetAdded` (render.js 28-37): for a still-unloaded container,
replace any stale `load:` subscription (off, then once) and trigger the load;
for a loaded one, extract immediately. -/
def onContainerAssetAdded (c : ContainerAsset) (s : RState) : Except JsErr RState :=
  if !c.loaded then
    .ok { s with registry :=
      (((s.registry.off (.load c.id) .containerLoaded).once
          (.load c.id) .containerLoaded).load c) }
  else
    onContainerAssetLoaded c s

/-- `RenderHandler.patch` (render.js 47-64).  When the registry lookup comes
back empty the source subscribes with `'add:' + containerAsset.id` — reading
`.id` from the very value just checked to be falsy, which throws a TypeError
in JS — modelled as `.error .typeError`. -/
def patch (s : RState) : Except JsErr RState :=
  if s.renderAsset.data.containerAsset == 0 then .ok s
  else
    match s.registry.get s.renderAsset.data.containerAsset with
    | none => .error .typeError
    | some c =>
      if !c.loaded then
        .ok { s with registry :=
          (s.registry.once (.load c.id) .containerLoaded).load c }
      else
        onContainerAssetLoaded c s

def runHandler (hd : Handler) (c : ContainerAsset) (s : RState) : Except JsErr RState :=
  match hd with
  | .containerLoaded => onContainerAssetLoaded c s
  | .containerAdded => onContainerAssetAdded c s

/-- The registry completes an asset load and fires `load:<id>`: the asset is
marked loaded, all matching once-subscriptions are removed (each fires at most
once), and their handlers run in registration order with the loaded asset. -/
def fireLoad (id : Nat) (s : RState) : Except JsErr RState :=
  let assets := s.registry.assets.map
    (fun a => if a.id == id then { a with loaded := true } else a)
  let s1 : RState := { s with registry := { s.registry with assets := assets } }
  match s1.registry.get id with
  | none => .ok s1
  | some c =>
    let matching := s1.registry.subs.filter (fun sb => sb.key == EventKey.load id)
    let rest := s1.registry.subs.filter (fun sb => !(sb.key == EventKey.load id))
    let s2 := { s1 with registry := { s1.registry with subs := rest } }
    matching.foldlM (fun st sb => runHandler sb.handler c st) s2

/-! ## Claim C2 -/

def c2Container (loaded : Bool) : ContainerAsset :=
  { id := 7, loaded := loaded, resources := [{ renders := [42] }] }

def c2RenderAsset : RenderAsset :=
  { data := { containerAsset := 7, renderIndex := 0 }, resource := some {} }

def c2State (registered loaded : Bool) : RState :=
  { renderAsset := c2RenderAsset,
    registry := { assets := if registered then [c2Container loaded] else [] } }

/-- C2 (code bug): resolving a render asset with a non-falsy resource
converges — with exactly one extraction — when the container is (i) registered
and loaded (immediate extraction) or (ii) registered but unloaded (subscribe +
load + the `load:` notification extracts); but in case (iii), container not
yet registered, `patch` throws a TypeError (it reads `.id` of the failed
lookup result instead of using the id it already has), so the three paths do
NOT all converge as the claim states. -/
theorem c2_patch_three_paths :
    patch (c2State true true)
        = .ok { renderAsset := { c2RenderAsset with resource := some { meshes := some 42 } },
                registry := { assets := [c2Container true] }, extractions := 1 }
    ∧ (patch (c2State true false)).bind (fireLoad 7)
        = .ok { renderAsset := { c2RenderAsset with resource := some { meshes := some 42 } },
                registry := { assets := [c2Container true], subs := [],
                              loadsTriggered := [7] },
                extractions := 1 }
    ∧ patch (c2State false false) = .error .typeError := by
  refine ⟨rfl, rfl, rfl⟩

/-! ## Claim C6 -/

/-- C6 (amended): for a render asset whose resource is falsy, the
container-loaded callback exits immediately with no state change, and `patch`
on a registered-and-loaded container is likewise a no-op; but `patch` itself
is not side-effect free in general — on a registered-but-unloaded container it
still adds a `load:` subscription and triggers the container load (see the
counterexample), and on an unregistered one it throws. -/
theorem c6_falsy_resource (s : RState) (c : ContainerAsset)
    (hres : s.renderAsset.resource = none) :
    onContainerAssetLoaded c s = .ok s
    ∧ (s.renderAsset.data.containerAsset ≠ 0 →
        s.registry.get s.renderAsset.data.containerAsset = some c →
        c.loaded = true →
        patch s = .ok s) := by
  constructor
  · simp [onContainerAssetLoaded, hres]
  · intro hid hget hloaded
    have hidb : (s.renderAsset.data.containerAsset == 0) = false := by
      simpa using hid
    simp [patch, hidb, hget, hloaded, onContainerAssetLoaded, hres]

def c6WitnessState : RState :=
  { renderAsset := { data := { containerAsset := 7, renderIndex := 0 }, resource := none },
    registry := { assets := [c2Container true] } }

theorem c6_falsy_resource_witness :
    onContainerAssetLoaded (c2Container true) c6WitnessState = .ok c6WitnessState
    ∧ (c6WitnessState.renderAsset.data.containerAsset ≠ 0 →
        c6WitnessState.registry.get c6WitnessState.renderAsset.data.containerAsset
          = some (c2Container true) →
        (c2Container true).loaded = true →
        patch c6WitnessState = .ok c6WitnessState) :=
  c6_falsy_resource c6WitnessState (c2Container true) rfl

def c6CexState : RState :=
  { renderAsset := { data := { containerAsset := 7, renderIndex := 0 }, resource := none },
    registry := { assets := [c2Container false] } }

/-- C6 counterexample: with a falsy resource but a registered-and-unloaded
container, `patch` does NOT exit without side effects — it adds one `load:7`
subscription and triggers the container load. -/
theorem c6_counterexample :
    (patch c6CexState).map
        (fun s => (s.registry.subs, s.registry.loadsTriggered))
      = .ok ([⟨EventKey.load 7, Handler.containerLoaded⟩], [7]) := by
  rfl

/-! ## RenderComponent (src/unnamed/part_000)

Mesh instances are identified by numeric ids; a layer stores the ids
registered with it.  The layer registry and batch-group registry are external
collaborators (spec §6), so their methods are modelled from the spec:
registering an already-present member is not duplicated, removal deletes the
member.  Per-instance flags live in an association list keyed by instance
id. -/

def LAYERID_WORLD : Nat := 0

/-- Per-instance render flags (`MeshInstance` fields the component stamps). -/
structure InstFlags where
  castShadow : Bool := true
  receiveShadow : Bool := true
  isStatic : Bool := false
  lightmapVal : Bool := false
deriving Repr, DecidableEq

structure Layer where
  id : Nat
  meshInstances : List Nat := []
  shadowCasters : List Nat := []
deriving Repr, DecidableEq

structure Scene where
  layers : List Layer
deriving Repr, DecidableEq

/-- `scene.layers.getLayerById(id)` (external interface, spec §6). -/
def Scene.getLayerById (sc : Scene) (lid : Nat) : Option Layer :=
  sc.layers.find? (fun L => L.id == lid)

/-- Modelled from the spec: the add half of `Layer.addMeshInstances` /
`Layer.addShadowCasters` — append each given member not already present
(§8 requires that re-adding does not duplicate). -/
def jsAddAbsent (arr l : List Nat) : List Nat :=
  l.foldl (fun a i => if a.contains i then a else a ++ [i]) arr

/-- Modelled from the spec: the remove half of `Layer.removeMeshInstances` /
`Layer.removeShadowCasters` — delete the given members. -/
def jsRemoveAll (arr l : List Nat) : List Nat :=
  arr.filter (fun x => !(l.contains x))

def Layer.addMIs (mi : List Nat) (L : Layer) : Layer :=
  { L with meshInstances := jsAddAbsent L.meshInstances mi }

def Layer.removeMIs (mi : List Nat) (L : Layer) : Layer :=
  { L with meshInstances := jsRemoveAll L.meshInstances mi }

def Layer.addSCs (mi : List Nat) (L : Layer) : Layer :=
  { L with shadowCasters := jsAddAbsent L.shadowCasters mi }

def Layer.removeSCs (mi : List Nat) (L : Layer) : Layer :=
  { L with shadowCasters := jsRemoveAll L.shadowCasters mi }

/-- Mutating the layer object `getLayerById` returned: layer ids are unique
keys in a scene, so this rewrites the layer(s) carrying that id; when the id
resolves to nothing the scene is untouched, which models the source's
`if (layer)` guard. -/
def Scene.updateById (sc : Scene) (lid : Nat) (f : Layer → Layer) : Scene :=
  { layers := sc.layers.map (fun L => if L.id == lid then f L else L) }

/-- The per-layer-id loops of `addToLayers` / `removeFromLayers` and the
setters: resolve each id of the component's layer list in order and update the
resolved layer. -/
def Scene.updateAll (sc : Scene) (lids : List Nat) (f : Layer → Layer) : Scene :=
  lids.foldl (fun s lid => s.updateById lid f) sc

/-- The component state (part_000 lines 38-61), plus the enabled flags of the
component and its owning entity.  `_meshInstances` is nullable (`none` models
JS `null`); `_batchGroupId` is `-1` for "no group". -/
structure RenderComponent where
  _type : String := "asset"
  _castShadows : Bool := true
  _receiveShadows : Bool := true
  _castShadowsLightmap : Bool := true
  _lightmapped : Bool := false
  _isStatic : Bool := false
  _batchGroupId : Int := -1
  _meshInstances : Option (List Nat) := some []
  _layers : List Nat := [LAYERID_WORLD]
  _material : Nat := 0
  _area : Option Nat := none
  enabled : Bool := true
  entityEnabled : Bool := true
deriving Repr, DecidableEq

/-- The world a component acts on: its own state, the scene's layer registry,
the batch groups currently holding the owning entity (`RENDER` kind), the
per-instance flag store, and a counter for fresh `MeshInstance` ids. -/
structure AppState where
  comp : RenderComponent
  scene : Scene
  batcher : List Int := []
  flags : List (Nat × InstFlags) := []
  nextInstId : Nat := 1000
deriving Repr, DecidableEq

/-- Modelled from the spec: the batch-group registry's
`insert(BatchGroup.RENDER, id, node)` for the single owning node. -/
def batcherInsert (b : List Int) (g : Int) : List Int :=
  if b.contains g then b else b ++ [g]

/-- Modelled from the spec: the batch-group registry's
`remove(BatchGroup.RENDER, id, node)`. -/
def batcherRemove (b : List Int) (g : Int) : List Int :=
  b.filter (fun x => x != g)

def setFlagsOn (fl : List (Nat × InstFlags)) (i : Nat)
    (f : InstFlags → InstFlags) : List (Nat × InstFlags) :=
  fl.map (fun p => if p.1 == i then (p.1, f p.2) else p)

/-- A per-instance flag mutation applied to every instance of a list (the
`for` loops over `mi` in the setters). -/
def stampFlags (fl : List (Nat × InstFlags)) (mi : List Nat)
    (f : InstFlags → InstFlags) : List (Nat × InstFlags) :=
  mi.foldl (fun acc i => setFlagsOn acc i f) fl

/-- `addToLayers` (part_000 67-75) on a known instance list. -/
def addToLayersCore (s : AppState) (mi : List Nat) : AppState :=
  { s with scene := s.scene.updateAll s.comp._layers (Layer.addMIs mi) }

/-- `removeFromLayers` (part_000 77-86) on a known instance list. -/
def removeFromLayersCore (s : AppState) (mi : List Nat) : AppState :=
  { s with scene := s.scene.updateAll s.comp._layers (Layer.removeMIs mi) }

/-- `addToLayers` as called with the component's possibly-null
`_meshInstances`: handing `null` to `Layer.addMeshInstances` throws inside the
layer. -/
def addToLayers (s : AppState) : Except JsErr AppState :=
  match s.comp._meshInstances with
  | none => .error .typeError
  | some mi => .ok (addToLayersCore s mi)

/-- `lightmapped` setter (part_000 332-348); `setLightmapped` on a mesh
instance is modelled from the spec as setting the per-instance lightmap
flag. -/
def setLightmapped (s : AppState) (value : Bool) : AppState :=
  if value == s.comp._lightmapped then s
  else
    let s1 := { s with comp := { s.comp with _lightmapped := value } }
    match s1.comp._meshInstances with
    | none => s1
    | some mi =>
      { s1 with flags := stampFlags s1.flags mi (fun f => { f with lightmapVal := value }) }

/-- Modelled from the spec: `getShapePrimitive(device, type).area`, the cached
silhouette-area value of a procedural primitive (its numeric value is
irrelevant to every claim). -/
def shapeArea (_ : String) : Nat := 0

/-- `type` setter (part_000 276-298): on a change, clear the cached area, store
the type, and — when the new type is a primitive shape — synthesize exactly
one fresh `MeshInstance` from the shape primitive with the current material
and REPLACE `_meshInstances` with it.  Note the source does NOT unbind the
previous instances from any layer here. -/
def setType (s : AppState) (value : String) : AppState :=
  if s.comp._type == value then s
  else
    let s1 := { s with comp := { s.comp with _area := none, _type := value } }
    if value == "asset" then s1
    else
      let newInst := s1.nextInstId
      { s1 with
        comp := { s1.comp with
          _area := some (shapeArea value), _meshInstances := some [newInst] },
        flags := s1.flags ++ [(newInst, {})],
        nextInstId := s1.nextInstId + 1 }

/-- `meshInstances` setter (part_000 300-330): unbind the previous non-null
list from the current layers, replace the list, stamp the shadow/static flags
from the component's settings onto each new instance, re-run the `lightmapped`
setter (a no-op, since the value is unchanged), and rebind into layers iff
component and entity are enabled. -/
def setMeshInstances (s : AppState) (value : Option (List Nat)) : AppState :=
  let s1 := match s.comp._meshInstances with
    | some old => removeFromLayersCore s old
    | none => s
  let s2 := { s1 with comp := { s1.comp with _meshInstances := value } }
  match value with
  | none => s2
  | some mi =>
    let s3 := { s2 with flags := stampFlags s2.flags mi (fun f =>
      { f with castShadow := s2.comp._castShadows,
               receiveShadow := s2.comp._receiveShadows,
               isStatic := s2.comp._isStatic }) }
    let s4 := setLightmapped s3 s3.comp._lightmapped
    if s4.comp.enabled && s4.comp.entityEnabled then addToLayersCore s4 mi else s4

/-- The trace of shadow-relevant operations a `castShadows` call performs, in
execution order. -/
inductive ShadowOp where
  | removeCasters (lid : Nat) (mi : List Nat) : ShadowOp
  | setFlag (inst : Nat) (value : Bool) : ShadowOp
  | addCasters (lid : Nat) (mi : List Nat) : ShadowOp
deriving Repr, DecidableEq

def ShadowOp.isRemove : ShadowOp → Bool
  | .removeCasters _ _ => true
  | _ => false

def ShadowOp.isFlag : ShadowOp → Bool
  | .setFlag _ _ => true
  | _ => false

def ShadowOp.isAdd : ShadowOp → Bool
  | .addCasters _ _ => true
  | _ => false

/-- The removal loop of the `castShadows` setter (part_000 363-370): for each
layer id, resolve it and remove the instances from its shadow-caster set.
Updates never change a layer's id, so resolvability is stable across the loop
and the trace can be read off the initial scene. -/
def removeCastersPhase (s : AppState) (mi : List Nat) : AppState × List ShadowOp :=
  ({ s with scene := s.scene.updateAll s.comp._layers (Layer.removeSCs mi) },
   s.comp._layers.filterMap (fun lid =>
     if (s.scene.getLayerById lid).isSome then some (.removeCasters lid mi) else none))

/-- The addition loop of the `castShadows` setter (part_000 376-383). -/
def addCastersPhase (s : AppState) (mi : List Nat) : AppState × List ShadowOp :=
  ({ s with scene := s.scene.updateAll s.comp._layers (Layer.addSCs mi) },
   s.comp._layers.filterMap (fun lid =>
     if (s.scene.getLayerById lid).isSome then some (.addCasters lid mi) else none))

/-- `castShadows` setter (part_000 350-389), instrumented with the trace of
shadow-caster removals, per-instance flag flips and shadow-caster additions in
execution order.  Both phase conditions read the OLD `_castShadows`; the field
itself is assigned last. -/
def setCastShadows (s : AppState) (value : Bool) : AppState × List ShadowOp :=
  if s.comp._castShadows == value then (s, [])
  else
    match s.comp._meshInstances with
    | none => ({ s with comp := { s.comp with _castShadows := value } }, [])
    | some mi =>
      let r1 := if s.comp._castShadows && !value then removeCastersPhase s mi else (s, [])
      let newFlags := stampFlags r1.1.flags mi (fun f => { f with castShadow := value })
      let s2 := { r1.1 with flags := newFlags }
      let tr2 := mi.map (fun i => ShadowOp.setFlag i value)
      let r3 := if !s.comp._castShadows && value then addCastersPhase s2 mi else (s2, [])
      ({ r3.1 with comp := { r3.1.comp with _castShadows := value } },
       r1.2 ++ tr2 ++ r3.2)

/-- `receiveShadows` setter (part_000 391-409).  The loop body reads the
identifier `meshInstances`, which is not declared in this function (only `mi`
is): in an ES module that raises a ReferenceError on the first iteration, so
any non-empty instance list makes the setter throw; the `_receiveShadows`
field itself was already assigned before the loop. -/
def setReceiveShadows (s : AppState) (value : Bool) : Except JsErr AppState :=
  if s.comp._receiveShadows == value then .ok s
  else
    let s1 := { s with comp := { s.comp with _receiveShadows := value } }
    match s1.comp._meshInstances with
    | none => .ok s1
    | some mi => if mi.length == 0 then .ok s1 else .error .referenceError

/-- `batchGroupId` setter (part_000 488-512): on a change, remove the entity
from the old group and insert it into the new one (each only while the entity
is enabled and the respective id is assigned); when moving from "assigned" to
"none" while component and entity are enabled, re-register the geometry
directly into its layers (`addToLayers`, which throws on a null list). -/
def setBatchGroupId (s : AppState) (value : Int) : Except JsErr AppState :=
  if s.comp._batchGroupId == value then .ok s
  else
    let b1 := if s.comp.entityEnabled && s.comp._batchGroupId >= 0
      then batcherRemove s.batcher s.comp._batchGroupId else s.batcher
    let b2 := if s.comp.entityEnabled && value >= 0 then batcherInsert b1 value else b1
    let s1 := { s with batcher := b2 }
    if value < 0 && s.comp._batchGroupId >= 0 && s.comp.enabled && s.comp.entityEnabled then
      match s1.comp._meshInstances with
      | none => .error .typeError
      | some mi =>
        .ok { (addToLayersCore s1 mi) with
          comp := { s1.comp with _batchGroupId := value } }
    else
      .ok { s1 with comp := { s1.comp with _batchGroupId := value } }

/-! ## Layer-membership lemmas -/

/-- The mesh-instance membership of the layer `lid` resolves to (empty when
unresolvable). -/
def misAt (sc : Scene) (lid : Nat) : List Nat :=
  ((sc.getLayerById lid).map Layer.meshInstances).getD []

/-- The shadow-caster membership of the layer `lid` resolves to. -/
def castersAt (sc : Scene) (lid : Nat) : List Nat :=
  ((sc.getLayerById lid).map Layer.shadowCasters).getD []

lemma mem_jsAddAbsent (arr l : List Nat) (x : Nat) :
    x ∈ jsAddAbsent arr l ↔ x ∈ arr ∨ x ∈ l := by
  induction l generalizing arr with
  | nil => simp [jsAddAbsent]
  | cons i t ih =>
    have hstep : jsAddAbsent arr (i :: t)
        = jsAddAbsent (if arr.contains i then arr else arr ++ [i]) t := rfl
    rw [hstep, ih]
    by_cases hc : arr.contains i = true
    · have hi : i ∈ arr := by simpa using hc
      simp only [if_pos hc, List.mem_cons]
      constructor
      · rintro (hx | hx)
        · exact Or.inl hx
        · exact Or.inr (Or.inr hx)
      · rintro (hx | rfl | hx)
        · exact Or.inl hx
        · exact Or.inl hi
        · exact Or.inr hx
    · simp only [if_neg hc, List.mem_append, List.mem_singleton, List.mem_cons]
      tauto

lemma jsAddAbsent_eq_of_subset (arr l : List Nat) (hsub : ∀ i ∈ l, i ∈ arr) :
    jsAddAbsent arr l = arr := by
  induction l generalizing arr with
  | nil => rfl
  | cons i t ih =>
    have hi : i ∈ arr := hsub i (List.mem_cons_self _ _)
    have hc : arr.contains i = true := by simpa using hi
    have hstep : jsAddAbsent arr (i :: t)
        = jsAddAbsent (if arr.contains i then arr else arr ++ [i]) t := rfl
    rw [hstep, if_pos hc]
    exact ih arr (fun j hj => hsub j (List.mem_cons_of_mem _ hj))

lemma jsAddAbsent_idem (arr l : List Nat) :
    jsAddAbsent (jsAddAbsent arr l) l = jsAddAbsent arr l :=
  jsAddAbsent_eq_of_subset _ _ (fun i hi => (mem_jsAddAbsent _ _ _).mpr (Or.inr hi))

lemma nodup_jsAddAbsent (arr l : List Nat) (h : arr.Nodup) :
    (jsAddAbsent arr l).Nodup := by
  induction l generalizing arr with
  | nil => exact h
  | cons i t ih =>
    have hstep : jsAddAbsent arr (i :: t)
        = jsAddAbsent (if arr.contains i then arr else arr ++ [i]) t := rfl
    rw [hstep]
    by_cases hc : arr.contains i = true
    · rw [if_pos hc]
      exact ih arr h
    · rw [if_neg hc]
      refine ih _ ?_
      have hni : i ∉ arr := by simpa using hc
      simp [List.nodup_append, h, hni]

lemma mem_jsRemoveAll (arr l : List Nat) (x : Nat) :
    x ∈ jsRemoveAll arr l ↔ x ∈ arr ∧ x ∉ l := by
  simp [jsRemoveAll, List.mem_filter]

lemma jsRemoveAll_idem (arr l : List Nat) :
    jsRemoveAll (jsRemoveAll arr l) l = jsRemoveAll arr l :=
  List.filter_eq_self.mpr (fun x hx => (List.mem_filter.mp hx).2)

lemma addMIs_id (mi : List Nat) (L : Layer) : (Layer.addMIs mi L).id = L.id := rfl

lemma removeMIs_id (mi : List Nat) (L : Layer) : (Layer.removeMIs mi L).id = L.id := rfl

lemma addSCs_id (mi : List Nat) (L : Layer) : (Layer.addSCs mi L).id = L.id := rfl

lemma removeSCs_id (mi : List Nat) (L : Layer) : (Layer.removeSCs mi L).id = L.id := rfl

lemma addMIs_idem (mi : List Nat) (L : Layer) :
    Layer.addMIs mi (Layer.addMIs mi L) = Layer.addMIs mi L := by
  simp [Layer.addMIs, jsAddAbsent_idem]

lemma removeMIs_idem (mi : List Nat) (L : Layer) :
    Layer.removeMIs mi (Layer.removeMIs mi L) = Layer.removeMIs mi L := by
  simp [Layer.removeMIs, jsRemoveAll_idem]

lemma addSCs_idem (mi : List Nat) (L : Layer) :
    Layer.addSCs mi (Layer.addSCs mi L) = Layer.addSCs mi L := by
  simp [Layer.addSCs, jsAddAbsent_idem]

lemma removeSCs_idem (mi : List Nat) (L : Layer) :
    Layer.removeSCs mi (Layer.removeSCs mi L) = Layer.removeSCs mi L := by
  simp [Layer.removeSCs, jsRemoveAll_idem]

/-- Updating the layers with id `lid'` commutes with lookup by `lid`:
the found layer is transformed exactly when its id is `lid'`. -/
lemma find?_update (layers : List Layer) (lid' lid : Nat) (f : Layer → Layer)
    (hid : ∀ L, (f L).id = L.id) :
    (layers.map (fun L => if L.id == lid' then f L else L)).find? (fun L => L.id == lid)
      = (layers.find? (fun L => L.id == lid)).map
          (fun L => if L.id == lid' then f L else L) := by
  induction layers with
  | nil => rfl
  | cons L t ih =>
    simp only [List.map_cons]
    have hGid : (if (L.id == lid') = true then f L else L).id = L.id := by
      by_cases h : L.id = lid' <;> simp [h, hid]
    by_cases hl : L.id = lid
    · rw [List.find?_cons_of_pos _ (by rw [hGid]; simp [hl]),
        List.find?_cons_of_pos _ (by simp [hl])]
      rfl
    · rw [List.find?_cons_of_neg _ (by rw [hGid]; simp [hl]),
        List.find?_cons_of_neg _ (by simp [hl])]
      exact ih

lemma getLayerById_updateById (sc : Scene) (lid' lid : Nat) (f : Layer → Layer)
    (hid : ∀ L, (f L).id = L.id) :
    (sc.updateById lid' f).getLayerById lid
      = (sc.getLayerById lid).map (fun L => if L.id == lid' then f L else L) :=
  find?_update sc.layers lid' lid f hid

/-- The per-layer-id loop: lookup by `lid` after the loop sees `f` applied
exactly when `lid` occurs in the id list (`f` is idempotent, so multiple
occurrences collapse). -/
lemma getLayerById_updateAll (sc : Scene) (lids : List Nat) (f : Layer → Layer)
    (hid : ∀ L, (f L).id = L.id) (hidem : ∀ L, f (f L) = f L) (lid : Nat) :
    (sc.updateAll lids f).getLayerById lid
      = (sc.getLayerById lid).map (fun L => if lid ∈ lids then f L else L) := by
  induction lids generalizing sc with
  | nil =>
    cases hsc : sc.getLayerById lid <;> simp [Scene.updateAll, hsc]
  | cons a t ih =>
    have hcons : Scene.updateAll sc (a :: t) f
        = Scene.updateAll (sc.updateById a f) t f := rfl
    rw [hcons, ih (sc.updateById a f), getLayerById_updateById sc a lid f hid]
    cases hsc : sc.getLayerById lid with
    | none => rfl
    | some L =>
      have hsc' : sc.layers.find? (fun L => L.id == lid) = some L := hsc
      have hbeq := List.find?_some hsc'
      have hLid : L.id = lid := by simpa using hbeq
      by_cases ha : L.id = a
      · have haa : lid = a := by omega
        by_cases hmem : lid ∈ t <;>
          simp [ha, haa, hmem, hidem, List.mem_cons]
      · have haa : ¬ (lid = a) := by omega
        by_cases hmem : lid ∈ t <;>
          simp [ha, haa, hmem, List.mem_cons]

lemma misAt_updateAll_addMIs (sc : Scene) (lids : List Nat) (mi : List Nat)
    (lid x : Nat) :
    x ∈ misAt (sc.updateAll lids (Layer.addMIs mi)) lid
      ↔ (x ∈ misAt sc lid ∨ (lid ∈ lids ∧ (sc.getLayerById lid).isSome = true ∧ x ∈ mi)) := by
  rw [misAt, getLayerById_updateAll sc lids _ (addMIs_id mi) (addMIs_idem mi) lid]
  cases hsc : sc.getLayerById lid with
  | none => simp [misAt, hsc]
  | some L =>
    by_cases hmem : lid ∈ lids <;>
      simp [misAt, hsc, hmem, Layer.addMIs, mem_jsAddAbsent]

lemma misAt_updateAll_removeMIs (sc : Scene) (lids : List Nat) (mi : List Nat)
    (lid x : Nat) :
    x ∈ misAt (sc.updateAll lids (Layer.removeMIs mi)) lid
      ↔ (x ∈ misAt sc lid ∧ ¬(lid ∈ lids ∧ (sc.getLayerById lid).isSome = true ∧ x ∈ mi)) := by
  rw [misAt, getLayerById_updateAll sc lids _ (removeMIs_id mi) (removeMIs_idem mi) lid]
  cases hsc : sc.getLayerById lid with
  | none => simp [misAt, hsc]
  | some L =>
    by_cases hmem : lid ∈ lids <;>
      simp [misAt, hsc, hmem, Layer.removeMIs, mem_jsRemoveAll] <;> tauto

lemma castersAt_updateAll_addSCs (sc : Scene) (lids : List Nat) (mi : List Nat)
    (lid x : Nat) :
    x ∈ castersAt (sc.updateAll lids (Layer.addSCs mi)) lid
      ↔ (x ∈ castersAt sc lid ∨ (lid ∈ lids ∧ (sc.getLayerById lid).isSome = true ∧ x ∈ mi)) := by
  rw [castersAt, getLayerById_updateAll sc lids _ (addSCs_id mi) (addSCs_idem mi) lid]
  cases hsc : sc.getLayerById lid with
  | none => simp [castersAt, hsc]
  | some L =>
    by_cases hmem : lid ∈ lids <;>
      simp [castersAt, hsc, hmem, Layer.addSCs, mem_jsAddAbsent]

lemma castersAt_updateAll_removeSCs (sc : Scene) (lids : List Nat) (mi : List Nat)
    (lid x : Nat) :
    x ∈ castersAt (sc.updateAll lids (Layer.removeSCs mi)) lid
      ↔ (x ∈ castersAt sc lid ∧ ¬(lid ∈ lids ∧ (sc.getLayerById lid).isSome = true ∧ x ∈ mi)) := by
  rw [castersAt, getLayerById_updateAll sc lids _ (removeSCs_id mi) (removeSCs_idem mi) lid]
  cases hsc : sc.getLayerById lid with
  | none => simp [castersAt, hsc]
  | some L =>
    by_cases hmem : lid ∈ lids <;>
      simp [castersAt, hsc, hmem, Layer.removeSCs, mem_jsRemoveAll] <;> tauto

/-- `getLayerById` resolvability is untouched by `updateAll` (updates keep
layer ids). -/
lemma isSome_updateAll (sc : Scene) (lids : List Nat) (f : Layer → Layer)
    (hid : ∀ L, (f L).id = L.id) (hidem : ∀ L, f (f L) = f L) (lid : Nat) :
    ((sc.updateAll lids f).getLayerById lid).isSome
      = (sc.getLayerById lid).isSome := by
  rw [getLayerById_updateAll sc lids f hid hidem lid]
  cases sc.getLayerById lid <;> rfl

/-! ## Setter reduction lemmas -/

lemma setLightmapped_self (s : AppState) : setLightmapped s s.comp._lightmapped = s := by
  simp [setLightmapped]

lemma not_mem_after_removeAll (sc : Scene) (lids : List Nat) (old : List Nat)
    (i lid : Nat) (hlid : lid ∈ lids) (hi : i ∈ old) :
    i ∉ misAt (sc.updateAll lids (Layer.removeMIs old)) lid := by
  intro hmem
  rw [misAt_updateAll_removeMIs] at hmem
  obtain ⟨hbefore, hnot⟩ := hmem
  by_cases hsome : (sc.getLayerById lid).isSome = true
  · exact hnot ⟨hlid, hsome, hi⟩
  · have hnone : sc.getLayerById lid = none := by
      cases h : sc.getLayerById lid
      · rfl
      · rw [h] at hsome
        simp at hsome

    simp [misAt, hnone] at hbefore

/-- The state a `castShadows` true→false call produces: shadow casters removed
from the resolvable layers, flags flipped to `false`, field updated. -/
def afterCastOff (s : AppState) (mi : List Nat) : AppState :=
  { s with
    scene := s.scene.updateAll s.comp._layers (Layer.removeSCs mi),
    flags := stampFlags s.flags mi (fun f => { f with castShadow := false }),
    comp := { s.comp with _castShadows := false } }

/-- The state a `castShadows` false→true call produces: flags flipped to
`true`, shadow casters added to the resolvable layers, field updated. -/
def afterCastOn (s : AppState) (mi : List Nat) : AppState :=
  { s with
    scene := s.scene.updateAll s.comp._layers (Layer.addSCs mi),
    flags := stampFlags s.flags mi (fun f => { f with castShadow := true }),
    comp := { s.comp with _castShadows := true } }

/-- `castShadows` true→false: the setter removes the instances from each
resolvable layer's shadow casters, then flips the flags; no additions. -/
lemma setCastShadows_remove_reduction (s : AppState) (mi : List Nat)
    (hmi : s.comp._meshInstances = some mi) (hcs : s.comp._castShadows = true) :
    setCastShadows s false
      = (afterCastOff s mi,
         (s.comp._layers.filterMap (fun lid =>
            if (s.scene.getLayerById lid).isSome
            then some (.removeCasters lid mi) else none))
           ++ mi.map (fun i => ShadowOp.setFlag i false)) := by
  simp [setCastShadows, hmi, hcs, removeCastersPhase, afterCastOff]

/-- `castShadows` false→true: the setter flips the flags, then adds the
instances to each resolvable layer's shadow casters; no removals. -/
lemma setCastShadows_add_reduction (s : AppState) (mi : List Nat)
    (hmi : s.comp._meshInstances = some mi) (hcs : s.comp._castShadows = false) :
    setCastShadows s true
      = (afterCastOn s mi,
         (mi.map (fun i => ShadowOp.setFlag i true))
           ++ (s.comp._layers.filterMap (fun lid =>
              if (s.scene.getLayerById lid).isSome
              then some (.addCasters lid mi) else none))) := by
  simp [setCastShadows, hmi, hcs, addCastersPhase, afterCastOn]

lemma removeTrace_isRemove (sc : Scene) (lids : List Nat) (mi : List Nat) :
    ∀ op ∈ lids.filterMap (fun lid =>
        if (sc.getLayerById lid).isSome
        then some (ShadowOp.removeCasters lid mi) else none),
      op.isRemove = true := by
  intro op hop
  rw [List.mem_filterMap] at hop
  obtain ⟨lid', _, hop2⟩ := hop
  by_cases hc : (sc.getLayerById lid').isSome = true
  · rw [if_pos hc] at hop2
    cases hop2
    rfl
  · rw [if_neg hc] at hop2
    cases hop2

lemma addTrace_isAdd (sc : Scene) (lids : List Nat) (mi : List Nat) :
    ∀ op ∈ lids.filterMap (fun lid =>
        if (sc.getLayerById lid).isSome
        then some (ShadowOp.addCasters lid mi) else none),
      op.isAdd = true := by
  intro op hop
  rw [List.mem_filterMap] at hop
  obtain ⟨lid', _, hop2⟩ := hop
  by_cases hc : (sc.getLayerById lid').isSome = true
  · rw [if_pos hc] at hop2
    cases hop2
    rfl
  · rw [if_neg hc] at hop2
    cases hop2

lemma flagTrace_isFlag (mi : List Nat) (v : Bool) :
    ∀ op ∈ mi.map (fun i => ShadowOp.setFlag i v), op.isFlag = true := by
  intro op hop
  rw [List.mem_map] at hop
  obtain ⟨i, _, rfl⟩ := hop
  rfl

/-- A trace of the shape removals ++ flag flips ++ additions equals its own
kind-sorted decomposition: the order "remove, then flip, then add" holds. -/
lemma trace_kind_sorted (t1 t2 t3 : List ShadowOp)
    (h1 : ∀ op ∈ t1, op.isRemove = true)
    (h2 : ∀ op ∈ t2, op.isFlag = true)
    (h3 : ∀ op ∈ t3, op.isAdd = true) :
    t1 ++ t2 ++ t3
      = (t1 ++ t2 ++ t3).filter ShadowOp.isRemove
        ++ (t1 ++ t2 ++ t3).filter ShadowOp.isFlag
        ++ (t1 ++ t2 ++ t3).filter ShadowOp.isAdd := by
  have f1 : (t1 ++ t2 ++ t3).filter ShadowOp.isRemove = t1 := by
    rw [List.filter_append, List.filter_append, List.filter_eq_self.mpr h1,
      List.filter_eq_nil.mpr (fun op hop => by
        have := h2 op hop
        cases op <;> simp_all [ShadowOp.isFlag, ShadowOp.isRemove]),
      List.filter_eq_nil.mpr (fun op hop => by
        have := h3 op hop
        cases op <;> simp_all [ShadowOp.isAdd, ShadowOp.isRemove])]
    simp
  have f2 : (t1 ++ t2 ++ t3).filter ShadowOp.isFlag = t2 := by
    rw [List.filter_append, List.filter_append, List.filter_eq_self.mpr h2,
      List.filter_eq_nil.mpr (fun op hop => by
        have := h1 op hop
        cases op <;> simp_all [ShadowOp.isFlag, ShadowOp.isRemove]),
      List.filter_eq_nil.mpr (fun op hop => by
        have := h3 op hop
        cases op <;> simp_all [ShadowOp.isAdd, ShadowOp.isFlag])]
    simp
  have f3 : (t1 ++ t2 ++ t3).filter ShadowOp.isAdd = t3 := by
    rw [List.filter_append, List.filter_append, List.filter_eq_self.mpr h3,
      List.filter_eq_nil.mpr (fun op hop => by
        have := h1 op hop
        cases op <;> simp_all [ShadowOp.isAdd, ShadowOp.isRemove]),
      List.filter_eq_nil.mpr (fun op hop => by
        have := h2 op hop
        cases op <;> simp_all [ShadowOp.isAdd, ShadowOp.isFlag])]
    simp
  rw [f1, f2, f3]

lemma mem_batcherInsert_self (b : List Int) (g : Int) : g ∈ batcherInsert b g := by
  unfold batcherInsert
  by_cases hc : b.contains g = true
  · rw [if_pos hc]
    simpa using hc
  · rw [if_neg hc]
    simp

lemma nodup_misAt_updateAll_addMIs (sc : Scene) (lids mi : List Nat) (lid : Nat)
    (h : (misAt sc lid).Nodup) :
    (misAt (sc.updateAll lids (Layer.addMIs mi)) lid).Nodup := by
  rw [misAt, getLayerById_updateAll sc lids _ (addMIs_id mi) (addMIs_idem mi) lid]
  cases hsc : sc.getLayerById lid with
  | none => simp
  | some L =>
    rw [misAt, hsc] at h
    by_cases hmem : lid ∈ lids
    · simp only [hmem, if_true, Option.map_map]
      simp only [Layer.addMIs]
      exact nodup_jsAddAbsent _ _ (by simpa using h)
    · simpa [hmem] using h

/-! ## Claim C3 -/

/-- C3 (amended): the `meshInstances` setter unbinds the previous non-null
list from every current layer before installing the new list, so a discarded
instance (in the old list, not in the new one) is registered in no current
layer afterwards; the `type` setter however replaces the geometry list WITHOUT
touching any layer — the claim's "every operation that replaces the list first
removes the old instances from all current layers" fails for it (see the
counterexample). -/
theorem c3_replace_unbinds (s : AppState) (old : List Nat)
    (value : Option (List Nat)) (i lid : Nat) (tname : String)
    (hold : s.comp._meshInstances = some old)
    (hlid : lid ∈ s.comp._layers)
    (hi : i ∈ old) (hnew : i ∉ value.getD []) :
    i ∉ misAt (setMeshInstances s value).scene lid
    ∧ (setType s tname).scene = s.scene := by
  constructor
  · cases value with
    | none =>
      have hred : (setMeshInstances s none).scene
          = s.scene.updateAll s.comp._layers (Layer.removeMIs old) := by
        simp [setMeshInstances, hold, removeFromLayersCore]
      rw [hred]
      exact not_mem_after_removeAll s.scene _ old i lid hlid hi
    | some mi' =>
      have hnew' : i ∉ mi' := by simpa using hnew
      by_cases hen : (s.comp.enabled && s.comp.entityEnabled) = true
      · have hred : (setMeshInstances s (some mi')).scene
            = (s.scene.updateAll s.comp._layers (Layer.removeMIs old)).updateAll
                s.comp._layers (Layer.addMIs mi') := by
          simp [setMeshInstances, hold, setLightmapped, removeFromLayersCore,
            addToLayersCore, hen]
        rw [hred]
        intro hmem
        rw [misAt_updateAll_addMIs] at hmem
        rcases hmem with hmem | ⟨_, _, hmemmi⟩
        · exact not_mem_after_removeAll s.scene _ old i lid hlid hi hmem
        · exact hnew' hmemmi
      · have hred : (setMeshInstances s (some mi')).scene
            = s.scene.updateAll s.comp._layers (Layer.removeMIs old) := by
          simp [setMeshInstances, hold, setLightmapped, removeFromLayersCore,
            addToLayersCore, hen]
        rw [hred]
        exact not_mem_after_removeAll s.scene _ old i lid hlid hi
  · unfold setType
    by_cases h1 : (s.comp._type == tname) = true
    · simp [h1]
    · by_cases h2 : (tname == "asset") = true <;> simp [h1, h2]

def c3WitnessState : AppState :=
  { comp := { _meshInstances := some [1] },
    scene := ⟨[{ id := 0, meshInstances := [1], shadowCasters := [1] }]⟩,
    flags := [(1, InstFlags.mk true true false false)] }

theorem c3_replace_unbinds_witness :
    1 ∉ misAt (setMeshInstances c3WitnessState (some [2])).scene 0
    ∧ (setType c3WitnessState "box").scene = c3WitnessState.scene :=
  c3_replace_unbinds c3WitnessState [1] (some [2]) 1 0 "box" rfl (by decide)
    (by decide) (by decide)

/-- C3 counterexample: switching `type` from "asset" to "box" replaces the
geometry list with one fresh primitive instance (id 1000) but leaves the
discarded instance 1 registered in layer 0's mesh-instance set. -/
theorem c3_counterexample :
    (setType c3WitnessState "box").comp._meshInstances = some [1000]
    ∧ 1 ∈ misAt (setType c3WitnessState "box").scene 0
    ∧ (1 : Nat) ∉ ([1000] : List Nat) := by
  refine ⟨rfl, by decide, by decide⟩

/-! ## Claim C4 -/

/-- C4: with geometry present and component and entity enabled, toggling
`castShadows` true→false→true restores exactly the original shadow-caster
membership in every layer (assuming the instances were registered as casters
wherever the component's layer list resolves, as the enabled state
guarantees); and within each call the operations are kind-sorted in execution
order — every shadow-caster removal precedes every per-instance flag flip,
and every addition follows the flag flips. -/
theorem c4_castshadows_roundtrip (s : AppState) (mi : List Nat) (lid : Nat)
    (hmi : s.comp._meshInstances = some mi)
    (hcs : s.comp._castShadows = true)
    (hen : s.comp.enabled = true) (hee : s.comp.entityEnabled = true)
    (hsub : lid ∈ s.comp._layers → ∀ i ∈ mi, i ∈ castersAt s.scene lid) :
    (∀ x, x ∈ castersAt (setCastShadows (setCastShadows s false).1 true).1.scene lid
        ↔ x ∈ castersAt s.scene lid)
    ∧ (setCastShadows s false).2
        = ((setCastShadows s false).2.filter ShadowOp.isRemove)
          ++ ((setCastShadows s false).2.filter ShadowOp.isFlag)
          ++ ((setCastShadows s false).2.filter ShadowOp.isAdd)
    ∧ (setCastShadows (setCastShadows s false).1 true).2
        = ((setCastShadows (setCastShadows s false).1 true).2.filter ShadowOp.isRemove)
          ++ ((setCastShadows (setCastShadows s false).1 true).2.filter ShadowOp.isFlag)
          ++ ((setCastShadows (setCastShadows s false).1 true).2.filter ShadowOp.isAdd) := by
  have h1 := setCastShadows_remove_reduction s mi hmi hcs
  have hmi1 : (afterCastOff s mi).comp._meshInstances = some mi := by
    simp [afterCastOff, hmi]
  have hcs1 : (afterCastOff s mi).comp._castShadows = false := by
    simp [afterCastOff]
  have h2 := setCastShadows_add_reduction (afterCastOff s mi) mi hmi1 hcs1
  have hlayers1 : (afterCastOff s mi).comp._layers = s.comp._layers := rfl
  have hscene1 : (afterCastOff s mi).scene
      = s.scene.updateAll s.comp._layers (Layer.removeSCs mi) := rfl
  refine ⟨?_, ?_, ?_⟩
  · intro x
    simp only [h1, h2]
    show x ∈ castersAt (afterCastOn (afterCastOff s mi) mi).scene lid ↔ _
    have hfin : (afterCastOn (afterCastOff s mi) mi).scene
        = (s.scene.updateAll s.comp._layers (Layer.removeSCs mi)).updateAll
            s.comp._layers (Layer.addSCs mi) := rfl
    rw [hfin, castersAt_updateAll_addSCs,
      isSome_updateAll s.scene _ _ (removeSCs_id mi) (removeSCs_idem mi) lid,
      castersAt_updateAll_removeSCs]
    by_cases hl : lid ∈ s.comp._layers
    · by_cases hs : (s.scene.getLayerById lid).isSome = true
      · have himp : ∀ y ∈ mi, y ∈ castersAt s.scene lid := hsub hl
        have himpx := fun hx => himp x hx
        tauto
      · tauto
    · tauto
  · simp only [h1]
    have hk := trace_kind_sorted
      (s.comp._layers.filterMap (fun lid =>
        if (s.scene.getLayerById lid).isSome
        then some (ShadowOp.removeCasters lid mi) else none))
      (mi.map (fun i => ShadowOp.setFlag i false)) []
      (removeTrace_isRemove s.scene s.comp._layers mi)
      (flagTrace_isFlag mi false)
      (by intro op hop; simp at hop)
    simpa using hk
  · simp only [h1, h2]
    have hk := trace_kind_sorted []
      (mi.map (fun i => ShadowOp.setFlag i true))
      ((afterCastOff s mi).comp._layers.filterMap (fun lid =>
        if ((afterCastOff s mi).scene.getLayerById lid).isSome
        then some (ShadowOp.addCasters lid mi) else none))
      (by intro op hop; simp at hop)
      (flagTrace_isFlag mi true)
      (addTrace_isAdd (afterCastOff s mi).scene (afterCastOff s mi).comp._layers mi)
    simpa using hk

def c4WitnessState : AppState :=
  { comp := { _meshInstances := some [1] },
    scene := ⟨[{ id := 0, meshInstances := [1], shadowCasters := [1] }]⟩,
    flags := [(1, InstFlags.mk true true false false)] }

theorem c4_castshadows_roundtrip_witness :
    (∀ x, x ∈ castersAt
        (setCastShadows (setCastShadows c4WitnessState false).1 true).1.scene 0
        ↔ x ∈ castersAt c4WitnessState.scene 0)
    ∧ (setCastShadows c4WitnessState false).2
        = ((setCastShadows c4WitnessState false).2.filter ShadowOp.isRemove)
          ++ ((setCastShadows c4WitnessState false).2.filter ShadowOp.isFlag)
          ++ ((setCastShadows c4WitnessState false).2.filter ShadowOp.isAdd)
    ∧ (setCastShadows (setCastShadows c4WitnessState false).1 true).2
        = ((setCastShadows (setCastShadows c4WitnessState false).1 true).2.filter
              ShadowOp.isRemove)
          ++ ((setCastShadows (setCastShadows c4WitnessState false).1 true).2.filter
              ShadowOp.isFlag)
          ++ ((setCastShadows (setCastShadows c4WitnessState false).1 true).2.filter
              ShadowOp.isAdd) :=
  c4_castshadows_roundtrip c4WitnessState [1] 0 rfl rfl rfl rfl (by decide)

/-! ## Claim C5 -/

/-- The state of a `-1 → g` batch-group transition: node inserted into the
group, scene untouched. -/
def afterBatchAssign (s : AppState) (g : Int) : AppState :=
  { s with
    batcher := batcherInsert s.batcher g,
    comp := { s.comp with _batchGroupId := g } }

/-- The state of a `g → -1` batch-group transition while enabled: node removed
from the group, geometry re-added into the resolvable current layers. -/
def afterBatchClear (s : AppState) (g : Int) (mi : List Nat) : AppState :=
  { s with
    batcher := batcherRemove s.batcher g,
    scene := s.scene.updateAll s.comp._layers (Layer.addMIs mi),
    comp := { s.comp with _batchGroupId := -1 } }

/-- C5 (amended): with geometry present and component and entity enabled,
setting `batchGroupId` from `-1` to a valid id inserts the owning node into
that batch group and leaves layer mesh-instance membership UNCHANGED (the
claim's "removes the geometry instances from direct layer membership" fails —
see the counterexample; the external batcher, not this setter, suppresses
direct draws); setting it back to `-1` removes the node from the group and
re-registers the geometry in every resolvable current layer without
duplicating instances. -/
theorem c5_batchgroup_transitions (s : AppState) (mi : List Nat) (g : Int) (lid : Nat)
    (hmi : s.comp._meshInstances = some mi)
    (hen : s.comp.enabled = true) (hee : s.comp.entityEnabled = true)
    (hg : 0 ≤ g) :
    (s.comp._batchGroupId = -1 →
      setBatchGroupId s g = .ok (afterBatchAssign s g)
        ∧ (afterBatchAssign s g).scene = s.scene
        ∧ (afterBatchAssign s g).batcher = batcherInsert s.batcher g
        ∧ g ∈ (afterBatchAssign s g).batcher
        ∧ (afterBatchAssign s g).comp._batchGroupId = g)
    ∧ (s.comp._batchGroupId = g →
      setBatchGroupId s (-1) = .ok (afterBatchClear s g mi)
        ∧ (afterBatchClear s g mi).batcher = batcherRemove s.batcher g
        ∧ (∀ x, x ∈ misAt (afterBatchClear s g mi).scene lid
            ↔ (x ∈ misAt s.scene lid
                ∨ (lid ∈ s.comp._layers ∧ (s.scene.getLayerById lid).isSome = true
                    ∧ x ∈ mi)))
        ∧ ((misAt s.scene lid).Nodup → (misAt (afterBatchClear s g mi).scene lid).Nodup)) := by
  constructor
  · intro hbg
    have e1 : (s.comp._batchGroupId == g) = false := by
      rw [hbg]
      simp only [beq_eq_false_iff_ne, ne_eq]
      omega
    have e2 : ¬ (s.comp._batchGroupId ≥ 0) := by
      rw [hbg]
      omega
    have e3 : ¬ (g < 0) := by omega
    refine ⟨?_, rfl, rfl, mem_batcherInsert_self _ _, rfl⟩
    simp [setBatchGroupId, e1, e2, e3, hee, hg, afterBatchAssign]
  · intro hbg
    have e1 : (s.comp._batchGroupId == (-1 : Int)) = false := by
      rw [hbg]
      simp only [beq_eq_false_iff_ne, ne_eq]
      omega
    have e2 : s.comp._batchGroupId ≥ 0 := by
      rw [hbg]
      omega
    have e3 : ¬ ((-1 : Int) ≥ 0) := by omega
    have e4 : ((-1 : Int) < 0) := by omega
    refine ⟨?_, rfl, ?_, ?_⟩
    · have e5 : ¬ (g = -1) := by omega
      have hred : setBatchGroupId s (-1) = .ok (afterBatchClear s g mi) := by
        simp [setBatchGroupId, e1, e2, e3, e4, e5, hg, hen, hee, hmi, afterBatchClear,
          addToLayersCore, hbg]
      exact hred
    · intro x
      have hsc : (afterBatchClear s g mi).scene
          = s.scene.updateAll s.comp._layers (Layer.addMIs mi) := rfl
      rw [hsc, misAt_updateAll_addMIs]
    · intro hnd
      have hsc : (afterBatchClear s g mi).scene
          = s.scene.updateAll s.comp._layers (Layer.addMIs mi) := rfl
      rw [hsc]
      exact nodup_misAt_updateAll_addMIs s.scene _ mi lid hnd

def c5WitnessState : AppState :=
  { comp := { _meshInstances := some [1] },
    scene := ⟨[{ id := 0, meshInstances := [1], shadowCasters := [1] }]⟩,
    flags := [(1, InstFlags.mk true true false false)] }

theorem c5_batchgroup_transitions_witness :
    (c5WitnessState.comp._batchGroupId = -1 →
      setBatchGroupId c5WitnessState 5 = .ok (afterBatchAssign c5WitnessState 5)
        ∧ (afterBatchAssign c5WitnessState 5).scene = c5WitnessState.scene
        ∧ (afterBatchAssign c5WitnessState 5).batcher
            = batcherInsert c5WitnessState.batcher 5
        ∧ (5 : Int) ∈ (afterBatchAssign c5WitnessState 5).batcher
        ∧ (afterBatchAssign c5WitnessState 5).comp._batchGroupId = 5)
    ∧ (c5WitnessState.comp._batchGroupId = 5 →
      setBatchGroupId c5WitnessState (-1) = .ok (afterBatchClear c5WitnessState 5 [1])
        ∧ (afterBatchClear c5WitnessState 5 [1]).batcher
            = batcherRemove c5WitnessState.batcher 5
        ∧ (∀ x, x ∈ misAt (afterBatchClear c5WitnessState 5 [1]).scene 0
            ↔ (x ∈ misAt c5WitnessState.scene 0
                ∨ (0 ∈ c5WitnessState.comp._layers
                    ∧ (c5WitnessState.scene.getLayerById 0).isSome = true
                    ∧ x ∈ [1])))
        ∧ ((misAt c5WitnessState.scene 0).Nodup →
            (misAt (afterBatchClear c5WitnessState 5 [1]).scene 0).Nodup)) :=
  c5_batchgroup_transitions c5WitnessState [1] 5 0 rfl rfl rfl (by omega)

/-- C5 counterexample: with geometry present, both enabled, and the component
in no batch group, setting `batchGroupId` to 5 leaves instance 1 registered in
layer 0's mesh-instance membership (and inserts the node into group 5) — the
setter does not remove the geometry from direct layer draws as the claim
states. -/
theorem c5_counterexample :
    (setBatchGroupId c5WitnessState 5).map
        (fun s' => (misAt s'.scene 0, s'.batcher))
      = .ok ([1], [5])
    ∧ (1 : Nat) ∈ ([1] : List Nat) := by
  refine ⟨rfl, by decide⟩

/-! ## Claim C9 -/

def c9State : AppState :=
  { comp := { _meshInstances := some [1] },
    scene := ⟨[]⟩,
    flags := [(1, InstFlags.mk true true false false)] }

/-- C9 (code bug): the `receiveShadows` setter's loop body writes
`meshInstances[i].receiveShadow`, but `meshInstances` is not declared in that
function (only `mi` is), so with a non-empty instance list the setter raises a
ReferenceError instead of updating the flags — the claim (and the spec's §9
open question) correctly identifies the intended behavior the code fails to
implement. -/
theorem c9_receive_shadows_throws :
    setReceiveShadows c9State false = .error .referenceError
    ∧ c9State.comp._receiveShadows = true
    ∧ c9State.comp._meshInstances = some [1] := by
  refine ⟨rfl, rfl, rfl⟩

end RusVim
